import Mathlib

/-!
Verification of the advice decision engine of the AI_Finance_Chatbot
repository: a shallow embedding in Lean 4 of the pure decision logic found
in `utils.py` (financial calculations, expense analysis, health scoring)
and `enhanced_app.py` (intent classification, sentiment fallback, advice
rules), together with theorems settling the specified properties.

Numbers are modelled as exact rationals, Python strings as Lean strings
(compared on their character lists), Python dicts that preserve insertion
order as association lists.
-/

set_option linter.unusedVariables false

/-! ## String helpers

`py_lower` models Python `str.lower()` (character-wise lowering, which
agrees with Python on the ASCII texts used by the program), and
`str_contains` models the Python substring test `needle in hay`.
-/

/-- Tests whether `needle` is an initial segment of `hay` (character lists). -/
def list_starts (needle hay : List Char) : Bool :=
  match needle, hay with
  | [], _ => true
  | _ :: _, [] => false
  | a :: as, b :: bs => a == b && list_starts as bs

/-- Tests whether `needle` occurs as a contiguous sublist of `hay`. -/
def list_contains (hay needle : List Char) : Bool :=
  match hay with
  | [] => list_starts needle []
  | _ :: t => list_starts needle hay || list_contains t needle

/-- Python `str.lower()` on the ASCII fragment: lower every character. -/
def py_lower (s : String) : String := ⟨s.data.map Char.toLower⟩

/-- Python `needle in hay` substring membership. -/
def str_contains (hay needle : String) : Bool := list_contains hay.data needle.data

theorem list_starts_iff (needle hay : List Char) :
    list_starts needle hay = true ↔ ∃ b, hay = needle ++ b := by
  induction needle generalizing hay with
  | nil => simp [list_starts]
  | cons a as ih =>
    cases hay with
    | nil => simp [list_starts]
    | cons b bs =>
      simp only [list_starts, Bool.and_eq_true, beq_iff_eq, ih, List.cons_append,
        List.cons.injEq]
      constructor
      · rintro ⟨rfl, c, rfl⟩; exact ⟨c, rfl, rfl⟩
      · rintro ⟨c, rfl, rfl⟩; exact ⟨rfl, c, rfl⟩

theorem list_contains_iff (hay needle : List Char) :
    list_contains hay needle = true ↔ ∃ a b, hay = a ++ needle ++ b := by
  induction hay with
  | nil =>
    simp only [list_contains, list_starts_iff]
    constructor
    · rintro ⟨b, h⟩
      exact ⟨[], b, by simpa using h⟩
    · rintro ⟨a, b, h⟩
      rcases List.append_eq_nil.mp (List.append_eq_nil.mp h.symm).1 with ⟨_, h2⟩
      exact ⟨b, by simp [h2, (List.append_eq_nil.mp h.symm).2]⟩
  | cons x t ih =>
    simp only [list_contains, Bool.or_eq_true, list_starts_iff, ih]
    constructor
    · rintro (⟨b, h⟩ | ⟨a, b, h⟩)
      · exact ⟨[], b, by simpa using h⟩
      · exact ⟨x :: a, b, by simp [h]⟩
    · rintro ⟨a, b, h⟩
      cases a with
      | nil => exact Or.inl ⟨b, by simpa using h⟩
      | cons y a' =>
        right
        refine ⟨a', b, ?_⟩
        simp only [List.cons_append, List.cons.injEq] at h
        simpa using h.2

/-- Substring containment holds whenever the haystack visibly decomposes
around the needle. -/
theorem str_contains_of_decomp (hay a needle b : String)
    (h : hay.data = a.data ++ needle.data ++ b.data) :
    str_contains hay needle = true := by
  rw [str_contains, list_contains_iff]
  exact ⟨a.data, b.data, h⟩

/-! ## Python `max` / `min` with a key function

Python `max(xs, key=k)` scans left to right and replaces the current best
only on a strictly greater key, hence it returns the first element
attaining the maximal key; `min` likewise returns the first element
attaining the minimal key.
-/

/-- Python `max` with a natural-number key, given the first element `b` and
the remaining elements. -/
def py_max_nat {α : Type} (key : α → ℕ) (b : α) : List α → α
  | [] => b
  | x :: rest => py_max_nat key (if key b < key x then x else b) rest

/-- Python `max` with a rational key. -/
def py_max_rat {α : Type} (key : α → ℚ) (b : α) : List α → α
  | [] => b
  | x :: rest => py_max_rat key (if key b < key x then x else b) rest

/-- Python `min` with a rational key. -/
def py_min_rat {α : Type} (key : α → ℚ) (b : α) : List α → α
  | [] => b
  | x :: rest => py_min_rat key (if key x < key b then x else b) rest

/-- `py_max_nat` returns the first element attaining the maximal key:
the scanned list splits as a strictly-smaller prefix, the result, and a
not-larger suffix. -/
theorem py_max_nat_spec {α : Type} (key : α → ℕ) (l : List α) (b : α) :
    ∃ l₁ l₂,
      b :: l = l₁ ++ py_max_nat key b l :: l₂ ∧
      (∀ x ∈ l₁, key x < key (py_max_nat key b l)) ∧
      (∀ x ∈ l₂, key x ≤ key (py_max_nat key b l)) := by
  induction l generalizing b with
  | nil => exact ⟨[], [], rfl, by simp, by simp⟩
  | cons x rest ih =>
    by_cases h : key b < key x
    · have hr : py_max_nat key b (x :: rest) = py_max_nat key x rest := by
        simp [py_max_nat, if_pos h]
      rw [hr]
      obtain ⟨l₁, l₂, hdec, hlt, hle⟩ := ih x
      cases l₁ with
      | nil =>
        simp only [List.nil_append, List.cons.injEq] at hdec
        obtain ⟨hx, hrest⟩ := hdec
        refine ⟨[b], l₂, ?_, ?_, hle⟩
        · rw [← hx, ← hrest]; rfl
        · intro y hy
          have hyb : y = b := by simpa using hy
          subst hyb
          rw [← hx]; exact h
      | cons z l₁' =>
        simp only [List.cons_append, List.cons.injEq] at hdec
        obtain ⟨hzx, htl⟩ := hdec
        subst hzx
        refine ⟨b :: x :: l₁', l₂, ?_, ?_, hle⟩
        · conv_lhs => rw [htl]
          rfl
        · intro y hy
          rcases List.mem_cons.mp hy with rfl | hy
          · exact lt_trans h (hlt x (List.mem_cons_self x l₁'))
          · rcases List.mem_cons.mp hy with rfl | hy
            · exact hlt y (List.mem_cons_self y l₁')
            · exact hlt y (List.mem_cons_of_mem x hy)
    · have hr : py_max_nat key b (x :: rest) = py_max_nat key b rest := by
        simp [py_max_nat, if_neg h]
      rw [hr]
      obtain ⟨l₁, l₂, hdec, hlt, hle⟩ := ih b
      cases l₁ with
      | nil =>
        simp only [List.nil_append, List.cons.injEq] at hdec
        obtain ⟨hb, hrest⟩ := hdec
        refine ⟨[], x :: rest, ?_, by simp, ?_⟩
        · rw [← hb]; rfl
        · intro y hy
          rcases List.mem_cons.mp hy with rfl | hy
          · rw [← hb]; exact le_of_not_lt h
          · rw [hrest] at hy; exact hle y hy
      | cons z l₁' =>
        simp only [List.cons_append, List.cons.injEq] at hdec
        obtain ⟨hzb, htl⟩ := hdec
        subst hzb
        refine ⟨b :: x :: l₁', l₂, ?_, ?_, hle⟩
        · conv_lhs => rw [htl]
          rfl
        · intro y hy
          rcases List.mem_cons.mp hy with rfl | hy
          · exact hlt y (List.mem_cons_self y l₁')
          · rcases List.mem_cons.mp hy with rfl | hy
            · exact lt_of_le_of_lt (le_of_not_lt h) (hlt b (List.mem_cons_self b l₁'))
            · exact hlt y (List.mem_cons_of_mem b hy)

/-- `py_max_rat` returns an element of the scanned list whose key bounds
every key from above. -/
theorem py_max_rat_spec {α : Type} (key : α → ℚ) (l : List α) (b : α) :
    py_max_rat key b l ∈ b :: l ∧
      ∀ x ∈ b :: l, key x ≤ key (py_max_rat key b l) := by
  induction l generalizing b with
  | nil =>
    refine ⟨by simp [py_max_rat], ?_⟩
    intro y hy
    have hyb : y = b := by simpa using hy
    subst hyb
    simp [py_max_rat]
  | cons x rest ih =>
    by_cases h : key b < key x
    · have hr : py_max_rat key b (x :: rest) = py_max_rat key x rest := by
        simp [py_max_rat, if_pos h]
      rw [hr]
      obtain ⟨hmem, hmax⟩ := ih x
      refine ⟨List.mem_cons_of_mem b hmem, ?_⟩
      intro y hy
      rcases List.mem_cons.mp hy with rfl | hy
      · exact le_of_lt (lt_of_lt_of_le h (hmax x (List.mem_cons_self x rest)))
      · exact hmax y hy
    · have hr : py_max_rat key b (x :: rest) = py_max_rat key b rest := by
        simp [py_max_rat, if_neg h]
      rw [hr]
      obtain ⟨hmem, hmax⟩ := ih b
      refine ⟨?_, ?_⟩
      · rcases List.mem_cons.mp hmem with he | hmem
        · exact List.mem_cons.mpr (Or.inl he)
        · exact List.mem_cons_of_mem b (List.mem_cons_of_mem x hmem)
      · intro y hy
        rcases List.mem_cons.mp hy with rfl | hy
        · exact hmax y (List.mem_cons_self y rest)
        · rcases List.mem_cons.mp hy with rfl | hy
          · exact le_trans (le_of_not_lt h) (hmax b (List.mem_cons_self b rest))
          · exact hmax y (List.mem_cons_of_mem b hy)

/-- `py_min_rat` returns an element of the scanned list whose key bounds
every key from below. -/
theorem py_min_rat_spec {α : Type} (key : α → ℚ) (l : List α) (b : α) :
    py_min_rat key b l ∈ b :: l ∧
      ∀ x ∈ b :: l, key (py_min_rat key b l) ≤ key x := by
  induction l generalizing b with
  | nil =>
    refine ⟨by simp [py_min_rat], ?_⟩
    intro y hy
    have hyb : y = b := by simpa using hy
    subst hyb
    simp [py_min_rat]
  | cons x rest ih =>
    by_cases h : key x < key b
    · have hr : py_min_rat key b (x :: rest) = py_min_rat key x rest := by
        simp [py_min_rat, if_pos h]
      rw [hr]
      obtain ⟨hmem, hmin⟩ := ih x
      refine ⟨List.mem_cons_of_mem b hmem, ?_⟩
      intro y hy
      rcases List.mem_cons.mp hy with rfl | hy
      · exact le_of_lt (lt_of_le_of_lt (hmin x (List.mem_cons_self x rest)) h)
      · exact hmin y hy
    · have hr : py_min_rat key b (x :: rest) = py_min_rat key b rest := by
        simp [py_min_rat, if_neg h]
      rw [hr]
      obtain ⟨hmem, hmin⟩ := ih b
      refine ⟨?_, ?_⟩
      · rcases List.mem_cons.mp hmem with he | hmem
        · exact List.mem_cons.mpr (Or.inl he)
        · exact List.mem_cons_of_mem b (List.mem_cons_of_mem x hmem)
      · intro y hy
        rcases List.mem_cons.mp hy with rfl | hy
        · exact hmin y (List.mem_cons_self y rest)
        · rcases List.mem_cons.mp hy with rfl | hy
          · exact le_trans (hmin b (List.mem_cons_self b rest)) (le_of_not_lt h)
          · exact hmin y (List.mem_cons_of_mem b hy)

/-! ## Python numeric formatting

`round_half_even` models Python `round` (banker's rounding) on our exact
rational model of Python floats; `python_round_1` is `round(x, 1)`.
`format_comma_2` models the f-string `:,.2f` conversion and `format_1`
models `:.1f`.
-/

/-- Round to the nearest integer, ties to the even integer. -/
def round_half_even (x : ℚ) : ℤ :=
  let f := ⌊x⌋
  let r := x - (f : ℚ)
  if r < 1/2 then f
  else if 1/2 < r then f + 1
  else if f % 2 = 0 then f else f + 1

/-- Python `round(x, 1)`. -/
def python_round_1 (x : ℚ) : ℚ := (round_half_even (x * 10) : ℚ) / 10

/-- Decimal digits of a natural number (most significant first), with fuel. -/
def nat_digits (fuel n : ℕ) : List Char :=
  match fuel with
  | 0 => []
  | fuel + 1 => if n < 10 then [Nat.digitChar n] else nat_digits fuel (n / 10) ++ [Nat.digitChar (n % 10)]

/-- Decimal representation of a natural number, as Python `str(n)`. -/
def nat_repr (n : ℕ) : String := ⟨nat_digits (n + 1) n⟩

/-- Insert a comma after every three characters, operating on a reversed
digit list, with fuel. -/
def comma_group (fuel : ℕ) (ds : List Char) : List Char :=
  match fuel, ds with
  | 0, ds => ds
  | _, [] => []
  | fuel + 1, ds =>
    if ds.length ≤ 3 then ds else ds.take 3 ++ ',' :: comma_group fuel (ds.drop 3)

/-- Thousands-separated decimal representation of a natural number. -/
def nat_commas (n : ℕ) : String :=
  ⟨(comma_group (nat_digits (n + 1) n).length (nat_digits (n + 1) n).reverse).reverse⟩

/-- Two-digit, zero-padded representation of `n < 100`. -/
def two_digit (n : ℕ) : String := if n < 10 then "0" ++ nat_repr n else nat_repr n

/-- Python f-string `:,.2f`: thousands separators and exactly two decimals. -/
def format_comma_2 (q : ℚ) : String :=
  let cents := round_half_even (q * 100)
  if cents < 0 then
    "-" ++ nat_commas ((-cents).toNat / 100) ++ "." ++ two_digit ((-cents).toNat % 100)
  else
    nat_commas (cents.toNat / 100) ++ "." ++ two_digit (cents.toNat % 100)

/-- Python f-string `:.1f`: exactly one decimal, no separators. -/
def format_1 (q : ℚ) : String :=
  let tenths := round_half_even (q * 10)
  if tenths < 0 then
    "-" ++ nat_repr ((-tenths).toNat / 10) ++ "." ++ nat_repr ((-tenths).toNat % 10)
  else
    nat_repr (tenths.toNat / 10) ++ "." ++ nat_repr (tenths.toNat % 10)

/-! ## Data model

`UserProfile` embeds the dataclass of `enhanced_app.py`. Monetary fields
are exact rationals, `financial_goals` keeps insertion order.
-/

structure UserProfile where
  name : String
  age : ℤ
  income : ℚ
  occupation : String
  financial_goals : List String
  risk_tolerance : String
  savings_amount : ℚ
  monthly_expenses : ℚ
  user_type : String
  created_at : String

/-! ## HealthScorer: `ReportGenerator.generate_financial_health_score`

Faithful decomposition of the body of
`utils.ReportGenerator.generate_financial_health_score` (a profile is
always supplied and always carries every dataclass field, so the
`if user_profile` and `hasattr` guards are taken). The accumulated score
is the sum of the four sub-scores in program order; the returned score is
`round(score, 1)` and the grade is computed from the unrounded sum.
-/

def monthly_income (p : UserProfile) : ℚ := p.income / 12

/-- `savings_amount / monthly_expenses if monthly_expenses > 0 else 0`. -/
def emergency_months (p : UserProfile) : ℚ :=
  if p.monthly_expenses > 0 then p.savings_amount / p.monthly_expenses else 0

/-- Emergency fund score: `min(emergency_months / 6 * 25, 25)`. -/
def emergency_score (p : UserProfile) : ℚ :=
  min (emergency_months p / 6 * 25) 25

def emergency_feedback (p : UserProfile) : String :=
  if emergency_months p ≥ 6 then "✅ Excellent emergency fund coverage"
  else if emergency_months p ≥ 3 then "⚠️ Good emergency fund, consider building to 6 months"
  else "❌ Build your emergency fund (aim for 6 months of expenses)"

def monthly_surplus (p : UserProfile) : ℚ := monthly_income p - p.monthly_expenses

/-- `monthly_surplus / monthly_income if monthly_income > 0 else 0`. -/
def savings_rate (p : UserProfile) : ℚ :=
  if monthly_income p > 0 then monthly_surplus p / monthly_income p else 0

/-- Savings rate score: `min(savings_rate / 0.20 * 25, 25)`; the program
adds `max(savings_score, 0)` to the total. -/
def savings_score (p : UserProfile) : ℚ :=
  min (savings_rate p / (20/100) * 25) 25

def savings_feedback (p : UserProfile) : String :=
  if savings_rate p ≥ 20/100 then "✅ Great savings rate!"
  else if savings_rate p ≥ 10/100 then "⚠️ Good savings rate, try to increase if possible"
  else "❌ Focus on increasing your savings rate"

/-- `monthly_expenses / monthly_income if monthly_income > 0 else 1`. -/
def expense_ratio (p : UserProfile) : ℚ :=
  if monthly_income p > 0 then p.monthly_expenses / monthly_income p else 1

/-- Budget management score: `max(25 - (expense_ratio - 0.8) * 100, 0)`.
Note the program caps this sub-score below at 0 but not above at 25. -/
def budget_score (p : UserProfile) : ℚ :=
  max (25 - (expense_ratio p - 8/10) * 100) 0

/-- Goals score: `min(len(financial_goals) * 5, 25)`, added only when the
goal list is non-empty. -/
def goal_score (p : UserProfile) : ℚ :=
  min ((p.financial_goals.length : ℚ) * 5) 25

/-- The accumulated (unrounded) score variable at the end of the body. -/
def health_score_raw (p : UserProfile) : ℚ :=
  emergency_score p + max (savings_score p) 0 + budget_score p +
    (if p.financial_goals ≠ [] then goal_score p else 0)

/-- Feedback strings in the order the program appends them. -/
def health_feedback (p : UserProfile) : List String :=
  [emergency_feedback p, savings_feedback p] ++
    (if p.financial_goals ≠ [] then
      ["✅ You have " ++ nat_repr p.financial_goals.length ++ " financial goals defined"]
    else ["❌ Consider setting specific financial goals"])

/-- `ReportGenerator._get_grade`. -/
def get_grade (score : ℚ) : String :=
  if score ≥ 90 then "A"
  else if score ≥ 80 then "B"
  else if score ≥ 70 then "C"
  else if score ≥ 60 then "D"
  else "F"

structure HealthScoreResult where
  score : ℚ
  grade : String
  feedback : List String

/-- `ReportGenerator.generate_financial_health_score` for a present profile. -/
def generate_financial_health_score (p : UserProfile) : HealthScoreResult :=
  { score := python_round_1 (health_score_raw p)
    grade := get_grade (health_score_raw p)
    feedback := health_feedback p }

theorem str_data_append (a b : String) : (a ++ b).data = a.data ++ b.data := rfl

/-! ## FinancialCalculations (`utils.py`) -/

/-- `FinancialCalculations.calculate_loan_payment`. -/
def calculate_loan_payment (principal rate : ℚ) (years : ℕ) : ℚ :=
  let monthly_rate := rate / 12
  let num_payments := years * 12
  if monthly_rate = 0 then principal / (num_payments : ℚ)
  else principal * (monthly_rate * (1 + monthly_rate) ^ num_payments) /
    ((1 + monthly_rate) ^ num_payments - 1)

/-- Modelled from the spec: the standard amortization formula
`principal * (r * (1+r)^n) / ((1+r)^n - 1)` with monthly rate
`r = annual_rate / 12` and `n = years * 12`, stated independently of the
program for the refinement comparison. -/
def amortization_formula (principal annual_rate : ℚ) (years : ℕ) : ℚ :=
  principal * ((annual_rate / 12) * (1 + annual_rate / 12) ^ (years * 12)) /
    ((1 + annual_rate / 12) ^ (years * 12) - 1)

/-- `FinancialCalculations.calculate_retirement_needs`: the local
`years_to_retirement` is computed but never used in the returned value. -/
def calculate_retirement_needs (current_age retirement_age : ℤ)
    (current_income replacement_ratio : ℚ) : ℚ :=
  let years_to_retirement := retirement_age - current_age
  let annual_need := current_income * replacement_ratio
  annual_need * 25

/-! ## ExpenseAnalyzer (`utils.py`)

`analyze_spending_pattern` receives the expense dict as an association
list in insertion order; the empty dict returned for empty input is
modelled by `Option.none`.
-/

structure SpendingAnalysis where
  total_expenses : ℚ
  highest_category : String
  lowest_category : String
  category_percentages : List (String × ℚ)
  recommendations : List String

/-- One step of the recommendation loop of `analyze_spending_pattern`. -/
def spending_recommendation (kv : String × ℚ) : Option String :=
  if (py_lower kv.1 = "entertainment" ∨ py_lower kv.1 = "shopping") ∧ 20 < kv.2 then
    some ("Consider reducing " ++ kv.1 ++ " spending (currently " ++ format_1 kv.2 ++ "%)")
  else if py_lower kv.1 = "housing" ∧ 30 < kv.2 then
    some ("Housing costs are high (" ++ format_1 kv.2 ++ "%). Consider options to reduce.")
  else none

/-- `ExpenseAnalyzer.analyze_spending_pattern`. -/
def analyze_spending_pattern (expenses : List (String × ℚ)) : Option SpendingAnalysis :=
  match expenses with
  | [] => none
  | e :: rest =>
    let total := ((e :: rest).map Prod.snd).sum
    let category_percentages := (e :: rest).map fun kv => (kv.1, kv.2 / total * 100)
    some
      { total_expenses := total
        highest_category := (py_max_rat Prod.snd e rest).1
        lowest_category := (py_min_rat Prod.snd e rest).1
        category_percentages := category_percentages
        recommendations := category_percentages.filterMap spending_recommendation }

/-! ## IntentClassifier (`enhanced_app.py`)

`EnhancedFinancialChatbot.classify_intent`: the keyword table in its
source order, substring matching on the lower-cased input, intents with a
zero score discarded, and Python `max` over the remaining dict.
-/

def intent_patterns : List (String × List String) :=
  [("budgeting",
    ["budget", "expense", "spend", "cost", "money management",
     "track spending", "monthly budget", "expense tracking"]),
   ("investment",
    ["invest", "stock", "bond", "portfolio", "return", "market",
     "mutual fund", "401k", "retirement account", "dividend"]),
   ("savings",
    ["save", "saving", "emergency fund", "deposit", "savings account",
     "high yield", "cd", "certificate of deposit"]),
   ("debt",
    ["debt", "loan", "credit", "payment", "owe", "mortgage",
     "student loan", "credit card", "refinance"]),
   ("tax",
    ["tax", "deduction", "filing", "refund", "irs",
     "tax return", "withholding", "tax planning"]),
   ("insurance",
    ["insurance", "health insurance", "life insurance",
     "auto insurance", "coverage", "premium"]),
   ("retirement",
    ["retirement", "retire", "pension", "401k", "ira",
     "retirement planning", "social security"])]

/-- `sum(1 for keyword in keywords if keyword in text_lower)`. -/
def count_matches (text_lower : String) (keywords : List String) : ℕ :=
  (keywords.filter fun k => str_contains text_lower k).length

/-- The `intent_scores` dict: intents paired with a positive match count,
in table order. -/
def intent_scores_list (text_lower : String) : List (String × ℕ) :=
  (intent_patterns.map fun it => (it.1, count_matches text_lower it.2)).filter
    fun s => 0 < s.2

/-- `EnhancedFinancialChatbot.classify_intent`. -/
def classify_intent (text : String) : String :=
  let text_lower := py_lower text
  match intent_scores_list text_lower with
  | [] => "general"
  | s :: rest => (py_max_nat Prod.snd s rest).1

/-! ## SentimentClassifier (`enhanced_app.py`)

`call_huggingface_api` returns `{}` on every failure mode (non-200
status, model loading, timeout, raised exception), and the parsed JSON
body on success. `analyze_sentiment` takes the success path only when the
result is a non-empty list whose first element is a non-empty list; every
other shape falls back to `_simple_sentiment_analysis`. The elements of
that inner ranking list are arbitrary JSON values: a non-dict element
makes `x.get` raise `AttributeError`, and a dict may carry a non-numeric
`score`, whose comparison against a number raises `TypeError`. Neither
exception is caught anywhere in `analyze_sentiment`, so the embedding
returns in `Except`, `Except.error` standing for an uncaught Python
exception.
-/

/-- A Python value found in a ranking entry's `score` field: a number, a
string, or `None`. Numbers compare numerically, strings compare with each
other lexicographically by code point, and every other combination raises
`TypeError` in Python. -/
inductive PyScore
  | num (q : ℚ)
  | str (s : String)
  | noneVal

/-- A `{label, score}` dict of the ranking; an absent `score` key makes
`x.get('score', 0)` default to the number 0. -/
structure SentimentEntry where
  label : Option String
  score : Option PyScore

/-- One element of the inner ranking list: a dict, or any non-dict JSON
value (number, string, list, null), on which `.get` raises. -/
inductive RankElem
  | nonDict
  | dict (e : SentimentEntry)

/-- A member of the returned top-level JSON list: either not itself a
list, or a list of ranking elements. -/
inductive ApiBodyElem
  | nonList
  | entries (es : List RankElem)

/-- The value returned by `call_huggingface_api`: `failure` stands for the
empty dict `{}` (any failure mode) and for any non-list body, `body` for a
JSON list. -/
inductive ApiResult
  | failure
  | body (elems : List ApiBodyElem)

/-- Python string `<`: lexicographic comparison by code point. -/
def list_char_lt : List Char → List Char → Bool
  | _, [] => false
  | [], _ :: _ => true
  | a :: as, b :: bs => a.val < b.val || (a == b && list_char_lt as bs)

/-- `x.get('score', 0)`: raises `AttributeError` on a non-dict element,
defaults to the number 0 on a missing key. -/
def get_score : RankElem → Except String PyScore
  | RankElem.nonDict => Except.error "AttributeError"
  | RankElem.dict e => Except.ok (e.score.getD (PyScore.num 0))

/-- Python `a > b` on score values. -/
def py_score_gt : PyScore → PyScore → Except String Bool
  | PyScore.num a, PyScore.num b => Except.ok (decide (b < a))
  | PyScore.str a, PyScore.str b => Except.ok (list_char_lt b.data a.data)
  | _, _ => Except.error "TypeError"

/-- The scan of Python `max(ranking, key=lambda x: x.get('score', 0))`
after the key has been applied to the first element: apply the key to
each further element, compare with the current best, and keep the current
best on ties; a failing key application or comparison raises. -/
def py_max_ranked (best : RankElem) : List RankElem → Except String RankElem
  | [] => Except.ok best
  | x :: rest => do
      let kx ← get_score x
      let kb ← get_score best
      let gt ← py_score_gt kx kb
      py_max_ranked (if gt then x else best) rest

/-- `label_mapping.get(label, label)`. -/
def label_mapping (l : String) : String :=
  if l = "LABEL_0" then "NEGATIVE"
  else if l = "LABEL_1" then "NEUTRAL"
  else if l = "LABEL_2" then "POSITIVE"
  else l

def positive_words : List String :=
  ["good", "great", "excellent", "happy", "satisfied", "love", "amazing"]

def negative_words : List String :=
  ["bad", "terrible", "awful", "hate", "worried", "concerned", "problem"]

/-- `sum(1 for word in words if word in text)` over the lower-cased text. -/
def sentiment_word_count (words : List String) (text : String) : ℕ :=
  (words.filter fun w => str_contains (py_lower text) w).length

/-- `EnhancedFinancialChatbot._simple_sentiment_analysis`. -/
def simple_sentiment_analysis (text : String) : String :=
  let positive_count := sentiment_word_count positive_words text
  let negative_count := sentiment_word_count negative_words text
  if negative_count < positive_count then "POSITIVE"
  else if positive_count < negative_count then "NEGATIVE"
  else "NEUTRAL"

/-- Whether the API result has the shape whose first element is a
non-empty ranking, the only shape on which the remote answer is used. -/
def api_has_ranking : ApiResult → Bool
  | ApiResult.body (ApiBodyElem.entries (_ :: _) :: _) => true
  | _ => false

/-- `EnhancedFinancialChatbot.analyze_sentiment`, as a function of the
API result and the input text; `Except.error` models an uncaught Python
exception escaping the call. Every shape-check miss returns the local
fallback; a non-empty ranking is consumed by `max` (key applied to the
first element, then the scan), and its result's `label` is read with
`.get('label', 'NEUTRAL')` and passed through `label_mapping`. -/
def analyze_sentiment (api : ApiResult) (text : String) : Except String String :=
  match api with
  | ApiResult.failure => Except.ok (simple_sentiment_analysis text)
  | ApiResult.body [] => Except.ok (simple_sentiment_analysis text)
  | ApiResult.body (ApiBodyElem.nonList :: _) => Except.ok (simple_sentiment_analysis text)
  | ApiResult.body (ApiBodyElem.entries [] :: _) => Except.ok (simple_sentiment_analysis text)
  | ApiResult.body (ApiBodyElem.entries (e :: es) :: _) => do
      let _ ← get_score e
      let top ← py_max_ranked e es
      match top with
      | RankElem.nonDict => Except.error "AttributeError"
      | RankElem.dict d => Except.ok (label_mapping (d.label.getD "NEUTRAL"))

/-! ## Investment rule (`EnhancedFinancialChatbot._get_investment_advice`)

The risk-keyed strategy table and the construction of the advice text up
to the allocation/instruments/expected-return block (the part of the rule
determined by `risk_tolerance`).
-/

structure RiskProfile where
  allocation : String
  instruments : String
  expected_return : String

def conservative_profile : RiskProfile :=
  { allocation := "20% stocks, 80% bonds/CDs"
    instruments := "Treasury bonds, high-grade corporate bonds, CDs"
    expected_return := "3-5% annually" }

def moderate_profile : RiskProfile :=
  { allocation := "60% stocks, 40% bonds"
    instruments := "Index funds, target-date funds, balanced funds"
    expected_return := "6-8% annually" }

def aggressive_profile : RiskProfile :=
  { allocation := "80-90% stocks, 10-20% bonds"
    instruments := "Growth stocks, small-cap funds, international funds"
    expected_return := "8-12% annually (with higher volatility)" }

def risk_strategies : List (String × RiskProfile) :=
  [("conservative", conservative_profile),
   ("moderate", moderate_profile),
   ("aggressive", aggressive_profile)]

/-- `risk_strategies.get(risk_tolerance.lower(), risk_strategies['moderate'])`. -/
def get_risk_profile (risk_tolerance : String) : RiskProfile :=
  match risk_strategies.find? fun kv => kv.1 == py_lower risk_tolerance with
  | some kv => kv.2
  | none => moderate_profile

/-- The opening of the investment advice, through the block printed from
the selected risk profile. -/
def investment_advice_intro (p : UserProfile) : String :=
  let risk_profile := get_risk_profile p.risk_tolerance
  "## 💰 Investment Advice\n\n" ++
    ("Based on your **" ++ p.risk_tolerance ++ "** risk tolerance:\n\n") ++
    ("**Recommended Allocation:** " ++ risk_profile.allocation ++ "\n") ++
    ("**Investment Types:** " ++ risk_profile.instruments ++ "\n") ++
    ("**Expected Returns:** " ++ risk_profile.expected_return ++ "\n\n")

/-! ## Savings rule (`EnhancedFinancialChatbot._get_savings_advice`) -/

/-- `emergency_target = monthly_expenses * 6`. -/
def emergency_target_of (p : UserProfile) : ℚ := p.monthly_expenses * 6

/-- `savings_amount / emergency_target if emergency_target > 0 else 0`. -/
def current_coverage_of (p : UserProfile) : ℚ :=
  if emergency_target_of p > 0 then p.savings_amount / emergency_target_of p else 0

/-- One line of the goal-based savings block. -/
def goal_savings_line (goal : String) : String :=
  if py_lower goal = "buy a house" then
    "🏠 **" ++ goal ++ ":** Save 20% down payment + closing costs\n"
  else if py_lower goal = "retirement" then
    "🏖️ **" ++ goal ++ ":** Target 25x annual expenses by retirement\n"
  else "🎯 **" ++ goal ++ ":** Create specific savings timeline\n"

/-- The goal loop of `_get_savings_advice`. -/
def goals_section : List String → String
  | [] => ""
  | g :: gs => goal_savings_line g ++ goals_section gs

/-- `EnhancedFinancialChatbot._get_savings_advice`. -/
def get_savings_advice (p : UserProfile) : String :=
  let advice1 := "## 🏦 Savings Strategy\n\n" ++ "**Emergency Fund Status:**\n"
  let advice2 :=
    if current_coverage_of p ≥ 1 then
      advice1 ++ "✅ Excellent! You have " ++ format_1 (current_coverage_of p) ++
        " months of expenses covered." ++ "\n" ++
        "Consider high-yield savings accounts or short-term CDs for this money.\n\n"
    else if current_coverage_of p ≥ 1/2 then
      advice1 ++ "⚠️ You\x27re halfway there! Need $" ++
        format_comma_2 (emergency_target_of p - p.savings_amount) ++
        " more for full 6-month coverage." ++ "\n" ++
        "Priority: Complete your emergency fund before aggressive investing.\n\n"
    else
      advice1 ++ "❌ Emergency fund needs attention. " ++ "Target: $" ++
        format_comma_2 (emergency_target_of p) ++ "\n" ++ "Current: $" ++
        format_comma_2 p.savings_amount ++ "\n" ++
        "**Action Plan:** Save $500-1000/month until you reach your target.\n\n"
  let advice3 := advice2 ++ "**Best Savings Options:**\n" ++
    "1. **High-Yield Savings Account** (4-5% APY) - Emergency fund\n" ++
    "2. **Certificate of Deposits** (4-6% APY) - Short-term goals\n" ++
    "3. **Money Market Account** (3-4% APY) - Medium liquidity needs\n\n"
  if p.financial_goals ≠ [] then
    advice3 ++ "**Goal-Based Savings:**\n" ++ goals_section p.financial_goals
  else advice3

/-! ## Claim theorems -/

/-- C3: `classify_intent` lower-cases the input, scores the 7 intents by
counting keyword phrases occurring as substrings, discards intents with a
zero score, and returns the intent with the highest count, the first one
in table iteration order on ties (every earlier surviving intent scores
strictly less, every later one at most as much); with no match it returns
`general`. In particular the two quoted inputs classify as `savings` and
`investment`. -/
theorem c3_classify_intent_spec :
    (∀ text : String,
        (classify_intent text = "general" ∧ intent_scores_list (py_lower text) = []) ∨
        (∃ l₁ l₂ n,
            intent_scores_list (py_lower text) =
              l₁ ++ (classify_intent text, n) :: l₂ ∧
            0 < n ∧
            (∀ q ∈ l₁, q.2 < n) ∧
            (∀ q ∈ l₂, q.2 ≤ n))) ∧
    classify_intent "I want to save for an emergency fund" = "savings" ∧
    classify_intent "What\x27s a good investment portfolio?" = "investment" := by
  refine ⟨?_, by decide, by decide⟩
  intro text
  have hc : classify_intent text =
      (match intent_scores_list (py_lower text) with
       | [] => "general"
       | s :: rest => (py_max_nat Prod.snd s rest).1) := rfl
  cases h : intent_scores_list (py_lower text) with
  | nil =>
    left
    refine ⟨?_, rfl⟩
    rw [hc, h]
  | cons s rest =>
    right
    obtain ⟨l₁, l₂, hdec, hlt, hle⟩ := py_max_nat_spec Prod.snd rest s
    have hcls : classify_intent text = (py_max_nat Prod.snd s rest).1 := by rw [hc, h]
    refine ⟨l₁, l₂, (py_max_nat Prod.snd s rest).2, ?_, ?_, hlt, hle⟩
    · rw [hcls]
      exact hdec
    · have hmem : py_max_nat Prod.snd s rest ∈ intent_scores_list (py_lower text) := by
        rw [h, hdec]
        exact List.mem_append_right l₁ (List.mem_cons_self _ _)
      rw [intent_scores_list] at hmem
      exact of_decide_eq_true (List.mem_filter.mp hmem).2

/-- Witness for C3: the theorem applied at the first quoted input. -/
theorem c3_classify_intent_spec_witness :
    classify_intent "I want to save for an emergency fund" = "savings" :=
  c3_classify_intent_spec.2.1

/-- C4 counterexample: a success-status body of shape `[[1]]` (a
non-empty ranking whose element is not a dict) passes both shape checks,
so `analyze_sentiment` reaches `max(..., key=lambda x: x.get('score', 0))`
and the key application raises an uncaught `AttributeError`: the call
neither falls back to keyword counting nor avoids raising. -/
theorem c4_malformed_ranking_counterexample :
    analyze_sentiment (ApiResult.body [ApiBodyElem.entries [RankElem.nonDict]])
        "tell me about finance" = Except.error "AttributeError" ∧
    analyze_sentiment (ApiResult.body [ApiBodyElem.entries [RankElem.nonDict]])
        "tell me about finance" ≠
      Except.ok (simple_sentiment_analysis "tell me about finance") := by
  have h1 : analyze_sentiment (ApiResult.body [ApiBodyElem.entries [RankElem.nonDict]])
      "tell me about finance" = Except.error "AttributeError" := rfl
  refine ⟨h1, ?_⟩
  rw [h1]
  simp

/-- C4 amended: every result that fails the shape checks (any failure
mode of `call_huggingface_api`, a non-list or empty body, a first element
that is not a non-empty list) falls back to the local keyword counter,
which answers POSITIVE, NEGATIVE or NEUTRAL by comparing matched word
counts, NEUTRAL for keyword-free text; but a non-empty ranking is
consumed without further checks, so a non-dict ranking element raises an
uncaught `AttributeError` and a non-numeric score compared against a
numeric one raises an uncaught `TypeError` instead of falling back. -/
theorem c4_sentiment_fallback :
    (∀ (api : ApiResult) (text : String), api_has_ranking api = false →
        analyze_sentiment api text = Except.ok (simple_sentiment_analysis text)) ∧
    (∀ text : String,
        (sentiment_word_count negative_words text < sentiment_word_count positive_words text →
          simple_sentiment_analysis text = "POSITIVE") ∧
        (sentiment_word_count positive_words text < sentiment_word_count negative_words text →
          simple_sentiment_analysis text = "NEGATIVE") ∧
        (sentiment_word_count positive_words text = sentiment_word_count negative_words text →
          simple_sentiment_analysis text = "NEUTRAL")) ∧
    (∀ text : String,
        sentiment_word_count positive_words text = 0 →
        sentiment_word_count negative_words text = 0 →
        analyze_sentiment ApiResult.failure text = Except.ok "NEUTRAL") ∧
    (∀ (text : String) (es : List RankElem) (rest : List ApiBodyElem),
        analyze_sentiment
            (ApiResult.body (ApiBodyElem.entries (RankElem.nonDict :: es) :: rest)) text =
          Except.error "AttributeError") ∧
    (∀ (text s : String) (q : ℚ) (label1 label2 : Option String) (rest : List ApiBodyElem),
        analyze_sentiment
            (ApiResult.body (ApiBodyElem.entries
              [RankElem.dict ⟨label1, some (PyScore.str s)⟩,
               RankElem.dict ⟨label2, some (PyScore.num q)⟩] :: rest)) text =
          Except.error "TypeError") := by
  have hsimple : ∀ text : String,
      (sentiment_word_count negative_words text < sentiment_word_count positive_words text →
        simple_sentiment_analysis text = "POSITIVE") ∧
      (sentiment_word_count positive_words text < sentiment_word_count negative_words text →
        simple_sentiment_analysis text = "NEGATIVE") ∧
      (sentiment_word_count positive_words text = sentiment_word_count negative_words text →
        simple_sentiment_analysis text = "NEUTRAL") := by
    intro text
    refine ⟨?_, ?_, ?_⟩
    · intro h
      rw [simple_sentiment_analysis, if_pos h]
    · intro h
      rw [simple_sentiment_analysis, if_neg (by omega), if_pos h]
    · intro h
      rw [simple_sentiment_analysis, if_neg (by omega), if_neg (by omega)]
  refine ⟨?_, hsimple, ?_, ?_, ?_⟩
  · intro api text h
    cases api with
    | failure => rfl
    | body elems =>
      cases elems with
      | nil => rfl
      | cons e rest =>
        cases e with
        | nonList => rfl
        | entries es =>
          cases es with
          | nil => rfl
          | cons e' es' => simp [api_has_ranking] at h
  · intro text h1 h2
    have hfb : analyze_sentiment ApiResult.failure text =
        Except.ok (simple_sentiment_analysis text) := rfl
    rw [hfb, (hsimple text).2.2 (by omega)]
  · intro text es rest
    rfl
  · intro text s q label1 label2 rest
    rfl

/-- Witness for the amended C4: a failed call on a keyword-free text
yields NEUTRAL, and a non-dict ranking element raises. -/
theorem c4_sentiment_fallback_witness :
    api_has_ranking ApiResult.failure = false ∧
    sentiment_word_count positive_words "tell me about finance" = 0 ∧
    sentiment_word_count negative_words "tell me about finance" = 0 ∧
    analyze_sentiment ApiResult.failure "tell me about finance" = Except.ok "NEUTRAL" ∧
    analyze_sentiment (ApiResult.body [ApiBodyElem.entries [RankElem.nonDict]]) "hello" =
      Except.error "AttributeError" :=
  ⟨by decide, by decide, by decide,
    c4_sentiment_fallback.2.2.1 "tell me about finance" (by decide) (by decide),
    c4_sentiment_fallback.2.2.2.1 "hello" [] []⟩

/-- C6: `calculate_retirement_needs` returns
`current_income * replacement_ratio * 25` for all inputs, is independent
of both age arguments, and with the default ratio `0.8` returns
`current_income * 0.8 * 25`. -/
theorem c6_retirement_needs_spec :
    ∀ (current_age retirement_age age2 ret2 : ℤ) (current_income replacement_ratio : ℚ),
      calculate_retirement_needs current_age retirement_age current_income replacement_ratio =
        current_income * replacement_ratio * 25 ∧
      calculate_retirement_needs current_age retirement_age current_income replacement_ratio =
        calculate_retirement_needs age2 ret2 current_income replacement_ratio ∧
      calculate_retirement_needs current_age retirement_age current_income (8/10) =
        current_income * (8/10) * 25 :=
  fun _ _ _ _ _ _ => ⟨rfl, rfl, rfl⟩

/-- C7: `calculate_loan_payment` equals the standard amortization formula
whenever the annual rate is non-zero, returns `principal / (years * 12)`
exactly at rate 0, and at principal 200000, rate 4 percent, 30 years the
monthly payment lies strictly between 954.82 and 954.84 dollars. -/
theorem c7_loan_payment_spec :
    (∀ (principal rate : ℚ) (years : ℕ), rate ≠ 0 →
        calculate_loan_payment principal rate years =
          amortization_formula principal rate years) ∧
    (∀ (principal : ℚ) (years : ℕ),
        calculate_loan_payment principal 0 years = principal / ((years * 12 : ℕ) : ℚ)) ∧
    95482/100 < calculate_loan_payment 200000 (4/100) 30 ∧
    calculate_loan_payment 200000 (4/100) 30 < 95484/100 := by
  refine ⟨?_, ?_, ?_, ?_⟩
  · intro principal rate years h
    rw [calculate_loan_payment, amortization_formula, if_neg (div_ne_zero h (by norm_num))]
  · intro principal years
    rw [calculate_loan_payment, if_pos (by norm_num)]
  · norm_num [calculate_loan_payment]
  · norm_num [calculate_loan_payment]

/-- Witness for C7: the rate hypothesis discharged at a concrete loan. -/
theorem c7_loan_payment_spec_witness :
    ((1:ℚ)/10 ≠ 0) ∧
    calculate_loan_payment 1200 (1/10) 1 = amortization_formula 1200 (1/10) 1 :=
  ⟨by norm_num, c7_loan_payment_spec.1 1200 (1/10) 1 (by norm_num)⟩

/-- C8: for every profile whose `risk_tolerance` lower-cases to something
outside the three known keys, the strategy lookup falls back to the
moderate profile and the advice block is built from the moderate
allocation, instruments and expected-return strings. -/
theorem c8_unrecognized_risk_moderate (p : UserProfile)
    (h : py_lower p.risk_tolerance ∉ (["conservative", "moderate", "aggressive"] : List String)) :
    get_risk_profile p.risk_tolerance = moderate_profile ∧
    investment_advice_intro p =
      "## 💰 Investment Advice\n\n" ++
        ("Based on your **" ++ p.risk_tolerance ++ "** risk tolerance:\n\n") ++
        ("**Recommended Allocation:** " ++ "60% stocks, 40% bonds" ++ "\n") ++
        ("**Investment Types:** " ++ "Index funds, target-date funds, balanced funds" ++ "\n") ++
        ("**Expected Returns:** " ++ "6-8% annually" ++ "\n\n") := by
  have hns : py_lower p.risk_tolerance ≠ "conservative" ∧
      py_lower p.risk_tolerance ≠ "moderate" ∧
      py_lower p.risk_tolerance ≠ "aggressive" := by
    refine ⟨?_, ?_, ?_⟩ <;> intro he <;> exact h (by simp [he])
  have hsel : get_risk_profile p.risk_tolerance = moderate_profile := by
    rw [get_risk_profile, risk_strategies]
    rw [List.find?]
    rw [show (("conservative", conservative_profile).1 == py_lower p.risk_tolerance) = false from
      beq_eq_false_iff_ne.mpr (Ne.symm hns.1)]
    rw [List.find?]
    rw [show (("moderate", moderate_profile).1 == py_lower p.risk_tolerance) = false from
      beq_eq_false_iff_ne.mpr (Ne.symm hns.2.1)]
    rw [List.find?]
    rw [show (("aggressive", aggressive_profile).1 == py_lower p.risk_tolerance) = false from
      beq_eq_false_iff_ne.mpr (Ne.symm hns.2.2)]
    rw [List.find?]
  refine ⟨hsel, ?_⟩
  rw [investment_advice_intro, hsel, moderate_profile]

/-- A profile with an unrecognized risk tolerance label. -/
def profile_balanced_risk : UserProfile :=
  { name := "B", age := 40, income := 60000, occupation := "engineer",
    financial_goals := [], risk_tolerance := "Balanced", savings_amount := 1000,
    monthly_expenses := 2000, user_type := "professional", created_at := "t" }

/-- Witness for C8: the theorem applied at the `Balanced` profile. -/
theorem c8_unrecognized_risk_moderate_witness :
    (py_lower profile_balanced_risk.risk_tolerance ∉
      (["conservative", "moderate", "aggressive"] : List String)) ∧
    get_risk_profile profile_balanced_risk.risk_tolerance = moderate_profile :=
  ⟨by decide, (c8_unrecognized_risk_moderate profile_balanced_risk (by decide)).1⟩

/-! ## Health score rounding lemmas -/

theorem round_half_even_floor_le (x : ℚ) : ⌊x⌋ ≤ round_half_even x := by
  rw [round_half_even]
  split_ifs <;> omega

theorem round_half_even_le_floor_add_one (x : ℚ) : round_half_even x ≤ ⌊x⌋ + 1 := by
  rw [round_half_even]
  split_ifs <;> omega

theorem round_half_even_mono {x y : ℚ} (h : x ≤ y) :
    round_half_even x ≤ round_half_even y := by
  have hf : ⌊x⌋ ≤ ⌊y⌋ := Int.floor_le_floor h
  rcases lt_or_eq_of_le hf with hlt | heq
  · calc round_half_even x ≤ ⌊x⌋ + 1 := round_half_even_le_floor_add_one x
      _ ≤ ⌊y⌋ := by omega
      _ ≤ round_half_even y := round_half_even_floor_le y
  · have hr : x - (⌊x⌋ : ℚ) ≤ y - (⌊y⌋ : ℚ) := by
      rw [← heq]; linarith
    rw [round_half_even, round_half_even, ← heq]
    rw [← heq] at hr
    split_ifs <;> first | omega | linarith

theorem python_round_1_mono {x y : ℚ} (h : x ≤ y) : python_round_1 x ≤ python_round_1 y := by
  rw [python_round_1, python_round_1]
  have h10 : x * 10 ≤ y * 10 := by linarith
  have hle : (round_half_even (x * 10) : ℚ) ≤ (round_half_even (y * 10) : ℚ) := by
    exact_mod_cast round_half_even_mono h10
  linarith

/-! ## Emergency fund sub-score as a function of the savings amount -/

theorem emergency_score_update_mono (p : UserProfile) {s₁ s₂ : ℚ} (h : s₁ ≤ s₂) :
    emergency_score { p with savings_amount := s₁ } ≤
      emergency_score { p with savings_amount := s₂ } := by
  simp only [emergency_score, emergency_months]
  by_cases he : p.monthly_expenses > 0
  · rw [if_pos he, if_pos he]
    apply min_le_min _ (le_refl 25)
    apply mul_le_mul_of_nonneg_right _ (by norm_num : (0:ℚ) ≤ 25)
    apply (div_le_div_iff_of_pos_right (by norm_num : (0:ℚ) < 6)).mpr
    exact (div_le_div_iff_of_pos_right he).mpr h
  · rw [if_neg he, if_neg he]

theorem emergency_score_capped (p : UserProfile) {s : ℚ}
    (h6 : 6 * p.monthly_expenses ≤ s) (he : p.monthly_expenses > 0) :
    emergency_score { p with savings_amount := s } = 25 := by
  simp only [emergency_score, emergency_months]
  rw [if_pos he]
  apply min_eq_right
  have h1 : (6:ℚ) ≤ s / p.monthly_expenses := by
    rw [le_div_iff₀ he]
    linarith
  linarith

theorem emergency_score_update_strict (p : UserProfile) {s₁ s₂ : ℚ}
    (h0 : 0 ≤ s₁) (h12 : s₁ < s₂) (hcap : s₁ < 6 * p.monthly_expenses) :
    emergency_score { p with savings_amount := s₁ } <
      emergency_score { p with savings_amount := s₂ } := by
  have he : 0 < p.monthly_expenses := by linarith
  simp only [emergency_score, emergency_months]
  rw [if_pos he, if_pos he]
  have hA1 : s₁ / p.monthly_expenses / 6 * 25 < 25 := by
    have : s₁ / p.monthly_expenses < 6 := (div_lt_iff₀ he).mpr (by linarith)
    linarith
  have hA2 : s₁ / p.monthly_expenses / 6 * 25 < s₂ / p.monthly_expenses / 6 * 25 := by
    have : s₁ / p.monthly_expenses < s₂ / p.monthly_expenses :=
      (div_lt_div_iff_of_pos_right he).mpr h12
    linarith
  rw [min_eq_left hA1.le]
  exact lt_min hA2 hA1

/-! ## Concrete profiles used by the health score claims -/

/-- Positive income, zero expenses, five goals: the budget sub-score is
`max(25 - (0 - 0.8) * 100, 0) = 105` and the total reaches 155. -/
def profile_expense_free : UserProfile :=
  { name := "A", age := 30, income := 1200, occupation := "x",
    financial_goals := ["g1", "g2", "g3", "g4", "g5"],
    risk_tolerance := "moderate", savings_amount := 0, monthly_expenses := 0,
    user_type := "professional", created_at := "t" }

/-- A profile with `monthly_expenses = 0`. -/
def profile_zero_expenses : UserProfile :=
  { name := "Z", age := 45, income := 24000, occupation := "y",
    financial_goals := ["Retirement"], risk_tolerance := "conservative",
    savings_amount := 500, monthly_expenses := 0,
    user_type := "professional", created_at := "t" }

/-- Monthly income equal to monthly expenses, no goals. -/
def profile_flat_budget : UserProfile :=
  { name := "C", age := 30, income := 12000, occupation := "x",
    financial_goals := [], risk_tolerance := "moderate", savings_amount := 0,
    monthly_expenses := 1000, user_type := "professional", created_at := "t" }

/-- C1: at a profile with positive income, zero monthly expenses and five
goals, the budget-management sub-score is 105 (beyond the stated cap of
25, since the program never caps it above) and the returned health score
is 155, beyond the documented range of 100: the code contradicts its own
docstring (a score out of 100). -/
theorem c1_score_exceeds_100_at_expense_free_profile :
    budget_score profile_expense_free = 105 ∧
    health_score_raw profile_expense_free = 155 ∧
    (generate_financial_health_score profile_expense_free).score = 155 ∧
    (100:ℚ) < (generate_financial_health_score profile_expense_free).score := by
  have hb : budget_score profile_expense_free = 105 := by
    norm_num [budget_score, expense_ratio, monthly_income, profile_expense_free, max_def]
  have hraw : health_score_raw profile_expense_free = 155 := by
    rw [health_score_raw, if_pos (by simp [profile_expense_free] :
      profile_expense_free.financial_goals ≠ [])]
    norm_num [emergency_score, emergency_months, savings_score, savings_rate,
      monthly_surplus, monthly_income, budget_score, expense_ratio, goal_score,
      profile_expense_free, min_def, max_def]
  have hscore : (generate_financial_health_score profile_expense_free).score = 155 := by
    show python_round_1 (health_score_raw profile_expense_free) = 155
    rw [hraw]
    norm_num [python_round_1, round_half_even]
  exact ⟨hb, hraw, hscore, by rw [hscore]; norm_num⟩

/-- C2 counterexample: at a concrete profile with `monthly_expenses = 0`
the emergency-fund feedback string is appended, contradicting the
claimed absence of an emergency-fund feedback entry. -/
theorem c2_zero_expense_feedback_counterexample :
    profile_zero_expenses.monthly_expenses = 0 ∧
    "❌ Build your emergency fund (aim for 6 months of expenses)" ∈
      (generate_financial_health_score profile_zero_expenses).feedback := by
  refine ⟨rfl, ?_⟩
  norm_num [generate_financial_health_score, health_feedback, emergency_feedback,
    savings_feedback, emergency_months, savings_rate, monthly_surplus,
    monthly_income, profile_zero_expenses]

/-- C2 amended: with `monthly_expenses = 0` the emergency-fund sub-score
contributes exactly 0 and no division occurs (the guarded branch yields
0), but the program still appends the lowest-tier emergency-fund feedback
string as the first feedback entry. -/
theorem c2_zero_expenses_amended (p : UserProfile) (h : p.monthly_expenses = 0) :
    emergency_score p = 0 ∧
    (generate_financial_health_score p).feedback.head? =
      some "❌ Build your emergency fund (aim for 6 months of expenses)" ∧
    health_score_raw p = max (savings_score p) 0 + budget_score p +
      (if p.financial_goals ≠ [] then goal_score p else 0) := by
  have hm : emergency_months p = 0 := by
    rw [emergency_months, h]
    exact if_neg (lt_irrefl 0)
  have hs : emergency_score p = 0 := by
    rw [emergency_score, hm]
    norm_num
  refine ⟨hs, ?_, ?_⟩
  · show (health_feedback p).head? = _
    have hf : emergency_feedback p =
        "❌ Build your emergency fund (aim for 6 months of expenses)" := by
      rw [emergency_feedback, hm]
      rw [if_neg (by norm_num : ¬ (0:ℚ) ≥ 6), if_neg (by norm_num : ¬ (0:ℚ) ≥ 3)]
    simp [health_feedback, hf]
  · rw [health_score_raw, hs, zero_add]

/-- Witness for the amended C2 at the concrete zero-expense profile. -/
theorem c2_zero_expenses_amended_witness :
    profile_zero_expenses.monthly_expenses = 0 ∧
    emergency_score profile_zero_expenses = 0 ∧
    (generate_financial_health_score profile_zero_expenses).feedback.head? =
      some "❌ Build your emergency fund (aim for 6 months of expenses)" :=
  ⟨rfl, (c2_zero_expenses_amended profile_zero_expenses rfl).1,
    (c2_zero_expenses_amended profile_zero_expenses rfl).2.1⟩

/-- C5 amended: holding everything but the savings amount fixed, the
returned health score is monotonically non-decreasing in savings, and
constant once savings reach six months of expenses; the accumulated
pre-rounding score is strictly increasing below that cap, while the
returned score is rounded to one decimal and therefore need not increase
strictly. -/
theorem c5_monotone_amended (p : UserProfile) (s₁ s₂ : ℚ) :
    (s₁ ≤ s₂ →
      (generate_financial_health_score { p with savings_amount := s₁ }).score ≤
        (generate_financial_health_score { p with savings_amount := s₂ }).score) ∧
    (6 * p.monthly_expenses ≤ s₁ → s₁ ≤ s₂ →
      (generate_financial_health_score { p with savings_amount := s₁ }).score =
        (generate_financial_health_score { p with savings_amount := s₂ }).score) ∧
    (0 ≤ s₁ → s₁ < s₂ → s₁ < 6 * p.monthly_expenses →
      health_score_raw { p with savings_amount := s₁ } <
        health_score_raw { p with savings_amount := s₂ }) := by
  refine ⟨?_, ?_, ?_⟩
  · intro h
    apply python_round_1_mono
    rw [health_score_raw, health_score_raw]
    exact add_le_add
      (add_le_add (add_le_add (emergency_score_update_mono p h) (le_refl _)) (le_refl _))
      (le_refl _)
  · intro h6 h12
    have hraw : health_score_raw { p with savings_amount := s₁ } =
        health_score_raw { p with savings_amount := s₂ } := by
      by_cases he : p.monthly_expenses > 0
      · have e₁ := emergency_score_capped p h6 he
        have e₂ := emergency_score_capped p (by linarith : 6 * p.monthly_expenses ≤ s₂) he
        rw [health_score_raw, health_score_raw, e₁, e₂]
        rfl
      · have hsame : emergency_score { p with savings_amount := s₁ } =
            emergency_score { p with savings_amount := s₂ } := by
          simp only [emergency_score, emergency_months]
          rw [if_neg he, if_neg he]
        rw [health_score_raw, health_score_raw, hsame]
        rfl
    show python_round_1 (health_score_raw { p with savings_amount := s₁ }) =
      python_round_1 (health_score_raw { p with savings_amount := s₂ })
    rw [hraw]
  · intro h0 h12 hcap
    rw [health_score_raw, health_score_raw]
    exact add_lt_add_of_lt_of_le
      (add_lt_add_of_lt_of_le
        (add_lt_add_of_lt_of_le (emergency_score_update_strict p h0 h12 hcap) (le_refl _))
        (le_refl _))
      (le_refl _)

/-- C5 counterexample: between savings 0 and 1 (both far below six months
of expenses) the pre-rounding score strictly increases but the returned
score, rounded to one decimal, does not change, so the returned score is
not strictly increasing below the cap. -/
theorem c5_rounded_strictness_counterexample :
    (0:ℚ) < 1 ∧
    (1:ℚ) < 6 * profile_flat_budget.monthly_expenses ∧
    health_score_raw { profile_flat_budget with savings_amount := 0 } <
      health_score_raw { profile_flat_budget with savings_amount := 1 } ∧
    (generate_financial_health_score { profile_flat_budget with savings_amount := 0 }).score =
      (generate_financial_health_score { profile_flat_budget with savings_amount := 1 }).score := by
  have hraw0 : health_score_raw { profile_flat_budget with savings_amount := 0 } = 5 := by
    norm_num [health_score_raw, emergency_score, emergency_months, savings_score,
      savings_rate, monthly_surplus, monthly_income, budget_score, expense_ratio,
      goal_score, profile_flat_budget, min_def, max_def]
  have hraw1 : health_score_raw { profile_flat_budget with savings_amount := 1 } = 5 + 1/240 := by
    norm_num [health_score_raw, emergency_score, emergency_months, savings_score,
      savings_rate, monthly_surplus, monthly_income, budget_score, expense_ratio,
      goal_score, profile_flat_budget, min_def, max_def]
  refine ⟨by norm_num, by norm_num [profile_flat_budget], ?_, ?_⟩
  · rw [hraw0, hraw1]; norm_num
  · show python_round_1 (health_score_raw { profile_flat_budget with savings_amount := 0 }) =
      python_round_1 (health_score_raw { profile_flat_budget with savings_amount := 1 })
    rw [hraw0, hraw1]
    norm_num [python_round_1, round_half_even]

/-- Witness for the amended C5: each hypothesis discharged at concrete
savings amounts for the flat-budget profile. -/
theorem c5_monotone_amended_witness :
    ((generate_financial_health_score { profile_flat_budget with savings_amount := 0 }).score ≤
      (generate_financial_health_score { profile_flat_budget with savings_amount := 1 }).score) ∧
    ((generate_financial_health_score { profile_flat_budget with savings_amount := 7000 }).score =
      (generate_financial_health_score { profile_flat_budget with savings_amount := 8000 }).score) ∧
    (health_score_raw { profile_flat_budget with savings_amount := 0 } <
      health_score_raw { profile_flat_budget with savings_amount := 1 }) :=
  ⟨(c5_monotone_amended profile_flat_budget 0 1).1 (by norm_num),
   (c5_monotone_amended profile_flat_budget 7000 8000).2.1
     (by norm_num [profile_flat_budget]) (by norm_num),
   (c5_monotone_amended profile_flat_budget 0 1).2.2 (by norm_num) (by norm_num)
     (by norm_num [profile_flat_budget])⟩

/-! ## Substring helper lemmas for the savings advice text -/

theorem str_contains_append_right (a t n : String) (h : str_contains a n = true) :
    str_contains (a ++ t) n = true := by
  rw [str_contains, list_contains_iff] at h ⊢
  obtain ⟨x, y, hxy⟩ := h
  exact ⟨x, y ++ t.data, by rw [str_data_append, hxy]; simp⟩

theorem str_contains_suffix2 (x s f : String) :
    str_contains ((x ++ s) ++ f) (s ++ f) = true :=
  str_contains_of_decomp _ x _ "" (by simp [str_data_append])

theorem str_contains_suffix3 (x s f t : String) :
    str_contains (((x ++ s) ++ f) ++ t) ((s ++ f) ++ t) = true :=
  str_contains_of_decomp _ x _ "" (by simp [str_data_append])

theorem str_contains_goals_ite (c : Prop) [inst : Decidable c] (a x y n : String)
    (h : str_contains a n = true) :
    str_contains (if c then (a ++ x) ++ y else a) n = true := by
  by_cases hc : c
  · rw [if_pos hc]
    exact str_contains_append_right _ _ _ (str_contains_append_right _ _ _ h)
  · rw [if_neg hc]
    exact h

/-- C9 amended: the savings rule computes the target `monthly_expenses * 6`
and coverage `savings / target` (0 on a non-positive target) and emits one
of three tier messages; the middle tier's text carries the formatted
dollar gap `target - savings`, while the bottom tier instead carries the
formatted target and the formatted current savings (not the gap). -/
theorem c9_savings_tiers_amended (p : UserProfile) :
    (1 ≤ current_coverage_of p →
      str_contains (get_savings_advice p)
        ("✅ Excellent! You have " ++ format_1 (current_coverage_of p) ++
          " months of expenses covered.") = true) ∧
    (current_coverage_of p < 1 → 1/2 ≤ current_coverage_of p →
      str_contains (get_savings_advice p)
        ("⚠️ You\x27re halfway there! Need $" ++
          format_comma_2 (emergency_target_of p - p.savings_amount) ++
          " more for full 6-month coverage.") = true) ∧
    (current_coverage_of p < 1/2 →
      str_contains (get_savings_advice p)
          ("Target: $" ++ format_comma_2 (emergency_target_of p)) = true ∧
      str_contains (get_savings_advice p)
          ("Current: $" ++ format_comma_2 p.savings_amount) = true) := by
  refine ⟨?_, ?_, ?_⟩
  · intro h1
    simp only [get_savings_advice]
    rw [if_pos h1]
    apply str_contains_goals_ite
    apply str_contains_append_right
    apply str_contains_append_right
    apply str_contains_append_right
    apply str_contains_append_right
    apply str_contains_append_right
    apply str_contains_append_right
    exact str_contains_suffix3 _ _ _ _
  · intro h1 h2
    simp only [get_savings_advice]
    rw [if_neg (not_le.mpr h1), if_pos h2]
    apply str_contains_goals_ite
    apply str_contains_append_right
    apply str_contains_append_right
    apply str_contains_append_right
    apply str_contains_append_right
    apply str_contains_append_right
    apply str_contains_append_right
    exact str_contains_suffix3 _ _ _ _
  · intro h1
    constructor
    · simp only [get_savings_advice]
      rw [if_neg (not_le.mpr (h1.trans (by norm_num))), if_neg (not_le.mpr h1)]
      apply str_contains_goals_ite
      apply str_contains_append_right
      apply str_contains_append_right
      apply str_contains_append_right
      apply str_contains_append_right
      apply str_contains_append_right
      apply str_contains_append_right
      apply str_contains_append_right
      apply str_contains_append_right
      apply str_contains_append_right
      exact str_contains_suffix2 _ _ _
    · simp only [get_savings_advice]
      rw [if_neg (not_le.mpr (h1.trans (by norm_num))), if_neg (not_le.mpr h1)]
      apply str_contains_goals_ite
      apply str_contains_append_right
      apply str_contains_append_right
      apply str_contains_append_right
      apply str_contains_append_right
      apply str_contains_append_right
      apply str_contains_append_right
      exact str_contains_suffix2 _ _ _

/-- Savings of 1000 against monthly expenses of 1000: coverage one sixth,
target 6000, gap 5000. -/
def profile_low_savings : UserProfile :=
  { name := "L", age := 30, income := 60000, occupation := "x",
    financial_goals := [], risk_tolerance := "moderate", savings_amount := 1000,
    monthly_expenses := 1000, user_type := "professional", created_at := "t" }

set_option maxRecDepth 20000 in
/-- C9 counterexample: in the bottom coverage tier the advice text does
not contain the formatted dollar gap `target - savings` (here
`$5,000.00`); it shows the target and the current savings instead. -/
theorem c9_bottom_tier_gap_counterexample :
    current_coverage_of profile_low_savings < 1/2 ∧
    format_comma_2 (emergency_target_of profile_low_savings -
      profile_low_savings.savings_amount) = "5,000.00" ∧
    str_contains (get_savings_advice profile_low_savings) "$5,000.00" = false := by
  have h5000 : format_comma_2 ((5000:ℚ)) = "5,000.00" := by
    rw [format_comma_2,
      show round_half_even ((5000:ℚ) * 100) = 500000 from by norm_num [round_half_even]]
    norm_num
    decide
  have h6000 : format_comma_2 ((6000:ℚ)) = "6,000.00" := by
    rw [format_comma_2,
      show round_half_even ((6000:ℚ) * 100) = 600000 from by norm_num [round_half_even]]
    norm_num
    decide
  have h1000 : format_comma_2 ((1000:ℚ)) = "1,000.00" := by
    rw [format_comma_2,
      show round_half_even ((1000:ℚ) * 100) = 100000 from by norm_num [round_half_even]]
    norm_num
    decide
  have hcov : current_coverage_of profile_low_savings < 1/2 := by
    norm_num [current_coverage_of, emergency_target_of, profile_low_savings]
  refine ⟨hcov, ?_, ?_⟩
  · rw [show emergency_target_of profile_low_savings -
        profile_low_savings.savings_amount = (5000:ℚ) from by
      norm_num [emergency_target_of, profile_low_savings]]
    exact h5000
  · simp only [get_savings_advice]
    rw [if_neg (not_le.mpr (hcov.trans (by norm_num))), if_neg (not_le.mpr hcov)]
    rw [show emergency_target_of profile_low_savings = (6000:ℚ) from by
      norm_num [emergency_target_of, profile_low_savings]]
    rw [show profile_low_savings.savings_amount = (1000:ℚ) from rfl]
    rw [h6000, h1000]
    rw [if_neg (by simp [profile_low_savings] : ¬ profile_low_savings.financial_goals ≠ [])]
    decide

/-- Witness for the amended C9: all three coverage tiers exercised at
concrete savings amounts, each hypothesis discharged numerically. -/
theorem c9_savings_tiers_amended_witness :
    str_contains (get_savings_advice { profile_low_savings with savings_amount := 12000 })
        ("✅ Excellent! You have " ++
          format_1 (current_coverage_of { profile_low_savings with savings_amount := 12000 }) ++
          " months of expenses covered.") = true ∧
    str_contains (get_savings_advice { profile_low_savings with savings_amount := 4000 })
        ("⚠️ You\x27re halfway there! Need $" ++
          format_comma_2 (emergency_target_of { profile_low_savings with savings_amount := 4000 } -
            ({ profile_low_savings with savings_amount := 4000 } : UserProfile).savings_amount) ++
          " more for full 6-month coverage.") = true ∧
    str_contains (get_savings_advice profile_low_savings)
        ("Target: $" ++ format_comma_2 (emergency_target_of profile_low_savings)) = true :=
  ⟨(c9_savings_tiers_amended { profile_low_savings with savings_amount := 12000 }).1
      (by norm_num [current_coverage_of, emergency_target_of, profile_low_savings]),
   (c9_savings_tiers_amended { profile_low_savings with savings_amount := 4000 }).2.1
      (by norm_num [current_coverage_of, emergency_target_of, profile_low_savings])
      (by norm_num [current_coverage_of, emergency_target_of, profile_low_savings]),
   ((c9_savings_tiers_amended profile_low_savings).2.2
      (by norm_num [current_coverage_of, emergency_target_of, profile_low_savings])).1⟩

/-! ## ExpenseAnalyzer claim -/

theorem list_sum_map_snd_mul (l : List (String × ℚ)) (c : ℚ) :
    (l.map fun kv => kv.2 * c).sum = (l.map Prod.snd).sum * c := by
  induction l with
  | nil => simp
  | cons x xs ih => simp [ih, add_mul]

/-- C10: on a non-empty ledger with positive total,
`analyze_spending_pattern` answers with percentages over the same keys in
the same order, each `amount / total * 100`, summing exactly to 100, and
with `highest_category` and `lowest_category` keys attaining the maximal
and minimal amounts. -/
theorem c10_spending_pattern_spec (expenses : List (String × ℚ)) (hne : expenses ≠ [])
    (hpos : 0 < (expenses.map Prod.snd).sum) :
    ∃ a, analyze_spending_pattern expenses = some a ∧
      a.total_expenses = (expenses.map Prod.snd).sum ∧
      a.category_percentages =
        expenses.map (fun kv => (kv.1, kv.2 / (expenses.map Prod.snd).sum * 100)) ∧
      a.category_percentages.map Prod.fst = expenses.map Prod.fst ∧
      (a.category_percentages.map Prod.snd).sum = 100 ∧
      (∃ v, (a.highest_category, v) ∈ expenses ∧ ∀ kv ∈ expenses, kv.2 ≤ v) ∧
      (∃ v, (a.lowest_category, v) ∈ expenses ∧ ∀ kv ∈ expenses, v ≤ kv.2) := by
  match expenses, hne, hpos with
  | e :: rest, _, hpos =>
    refine ⟨_, rfl, rfl, rfl, ?_, ?_, ?_, ?_⟩
    · simp [List.map_map, Function.comp]
    · have hfe : (fun kv : String × ℚ =>
          kv.2 / ((e :: rest).map Prod.snd).sum * 100) = fun kv =>
          kv.2 * (100 / ((e :: rest).map Prod.snd).sum) := by
        funext kv
        ring
      show (((e :: rest).map fun kv =>
          (kv.1, kv.2 / ((e :: rest).map Prod.snd).sum * 100)).map Prod.snd).sum = 100
      rw [List.map_map]
      have hcomp : (Prod.snd ∘ fun kv : String × ℚ =>
          (kv.1, kv.2 / ((e :: rest).map Prod.snd).sum * 100)) = fun kv =>
          kv.2 / ((e :: rest).map Prod.snd).sum * 100 := rfl
      rw [hcomp, hfe, list_sum_map_snd_mul, ← mul_div_assoc, mul_comm, mul_div_assoc,
        div_self (ne_of_gt hpos), mul_one]
    · obtain ⟨hmem, hmax⟩ := py_max_rat_spec Prod.snd rest e
      exact ⟨(py_max_rat Prod.snd e rest).2, hmem, hmax⟩
    · obtain ⟨hmem, hmin⟩ := py_min_rat_spec Prod.snd rest e
      exact ⟨(py_min_rat Prod.snd e rest).2, hmem, fun kv hkv => hmin kv hkv⟩

/-- A three-category ledger. -/
def sample_ledger : List (String × ℚ) :=
  [("Housing", 500), ("Food", 300), ("Entertainment", 200)]

/-- Witness for C10 at a concrete ledger. -/
theorem c10_spending_pattern_spec_witness :
    sample_ledger ≠ [] ∧ 0 < (sample_ledger.map Prod.snd).sum ∧
    ∃ a, analyze_spending_pattern sample_ledger = some a ∧
      a.total_expenses = (sample_ledger.map Prod.snd).sum ∧
      a.category_percentages =
        sample_ledger.map (fun kv => (kv.1, kv.2 / (sample_ledger.map Prod.snd).sum * 100)) ∧
      a.category_percentages.map Prod.fst = sample_ledger.map Prod.fst ∧
      (a.category_percentages.map Prod.snd).sum = 100 ∧
      (∃ v, (a.highest_category, v) ∈ sample_ledger ∧ ∀ kv ∈ sample_ledger, kv.2 ≤ v) ∧
      (∃ v, (a.lowest_category, v) ∈ sample_ledger ∧ ∀ kv ∈ sample_ledger, v ≤ kv.2) :=
  ⟨by simp [sample_ledger], by norm_num [sample_ledger],
    c10_spending_pattern_spec sample_ledger (by simp [sample_ledger])
      (by norm_num [sample_ledger])⟩
